import Mathlib

/-!
# WhisperServerLocal orchestrator — shallow embedding and verification

A shallow embedding of the Go transcription orchestrator
(`cmd/orchestrator`, `internal/rabbitmq`, `internal/validator`,
`internal/worker`) and proofs of the specified properties.

Modelling conventions:
* Go `int` values (attachment ids, retry counts) become `Int`; the one
  place a narrowing `int32(...)` conversion occurs (the `x-retry-count`
  header) is modelled explicitly by `toInt32`.
* Go `float64` durations are carried opaquely (never computed with), so
  they are modelled as `Rat`.
* Effects are modelled by explicit environments: the file system is a
  function `String → Option FileInfo` standing for `os.Stat`; the
  subprocess exchange and the broker's answer to a publish are inputs of
  the dispatch environment.
-/

namespace WhisperLocal

/-! ## Data model (`internal/rabbitmq/types.go`) -/

/-- `TranscriptionRequest`: the inbound job envelope.  Struct fields and
JSON tags: `attachment_id`, `audio_file_path`, `language,omitempty`,
`retry_count,omitempty`.  There is no other field. -/
structure TranscriptionRequest where
  attachmentID : Int
  audioFilePath : String
  language : String
  retryCount : Int
deriving DecidableEq

/-- `TranscriptionResult`: the outbound result envelope.  Struct fields and
JSON tags: `attachment_id`, `texto`, `duration`, `model`, `success`,
`error_message,omitempty`.  There is no other field. -/
structure TranscriptionResult where
  attachmentID : Int
  texto : String
  duration : Rat
  model : String
  success : Bool
  errorMessage : String
deriving DecidableEq

/-- `PythonWorkerResponse`: one line of JSON read back from the child. -/
structure PythonWorkerResponse where
  success : Bool
  texto : String
  duration : Rat
  model : String
  errorMessage : String
deriving DecidableEq

/-- The JSON keys `encoding/json` emits when marshalling a
`TranscriptionResult`: every plain-tagged field, and `error_message` only
when non-empty (its tag carries `omitempty`). -/
def TranscriptionResult.jsonKeys (r : TranscriptionResult) : List String :=
  ["attachment_id", "texto", "duration", "model", "success"] ++
    (if r.errorMessage = "" then [] else ["error_message"])

/-- The JSON keys `encoding/json` emits when marshalling a
`TranscriptionRequest` (`language` and `retry_count` carry `omitempty`). -/
def TranscriptionRequest.jsonKeys (rq : TranscriptionRequest) : List String :=
  ["attachment_id", "audio_file_path"] ++
    (if rq.language = "" then [] else ["language"]) ++
    (if rq.retryCount = 0 then [] else ["retry_count"])

/-- The JSON keys the decoder binds when unmarshalling an inbound message
into `TranscriptionRequest` (the struct's tags); any other key of the
inbound JSON object is dropped by `encoding/json`. -/
def TranscriptionRequest.jsonFieldNames : List String :=
  ["attachment_id", "audio_file_path", "language", "retry_count"]

/-! ## Validator (`internal/validator/file.go`) -/

/-- What `os.Stat` reports about an existing path. -/
structure FileInfo where
  isDir : Bool
deriving DecidableEq

/-- `SupportedAudioFormats` from `internal/validator/file.go`. -/
def SupportedAudioFormats : List String :=
  [".opus", ".mp3", ".wav", ".m4a", ".ogg", ".flac", ".aac", ".wma"]

/-- `FileExists`: `os.Stat` error (path absent, or otherwise unstattable)
gives `false`; an existing path gives `!info.IsDir()`.  The file system is
passed in as the `stat` oracle. -/
def FileExists (stat : String → Option FileInfo) (path : String) : Bool :=
  match stat path with
  | none => false
  | some info => !info.isDir

/-- `path/filepath.Ext`: walk backwards from the end of the path; stop at a
path separator with no extension, or return the suffix from the last dot.
`acc` carries the already-consumed suffix in source order. -/
def extGo : List Char → List Char → String
  | _, [] => ""
  | acc, c :: rest =>
    if c = '/' then ""
    else if c = '.' then String.mk ('.' :: acc)
    else extGo (c :: acc) rest

/-- `filepath.Ext path` over the embedding. -/
def filepathExt (path : String) : String :=
  extGo [] path.data.reverse

/-- Per-character lowercase mapping.  Go's `strings.ToLower` applies the
Unicode simple lowercase map; on ASCII that is `'A'..'Z' ↦ 'a'..'z'` and
identity elsewhere.  (No non-ASCII uppercase letter lowercases into the
alphabet of `SupportedAudioFormats`, so this agrees with Go on every
membership test below.) -/
def toLowerGo (c : Char) : Char :=
  if 'A' ≤ c ∧ c ≤ 'Z' then Char.ofNat (c.toNat + 32) else c

/-- `strings.ToLower` over the embedding. -/
def toLowerStringGo (s : String) : String :=
  String.mk (s.data.map toLowerGo)

/-- `ValidateAudioExtension`: lowercase the extension and scan the
supported list for an exact match. -/
def ValidateAudioExtension (path : String) : Bool :=
  let ext := toLowerStringGo (filepathExt path)
  SupportedAudioFormats.any (fun validExt => ext == validExt)

/-! ## Producer (`internal/rabbitmq/producer.go`) -/

/-- `MaxRetries = 2` (2 retries = 3 total attempts). -/
def MaxRetries : Int := 2

/-- `ShouldRetry(retryCount) = retryCount < MaxRetries`. -/
def ShouldRetry (retryCount : Int) : Bool :=
  retryCount < MaxRetries

/-- The producer's state that the published envelopes depend on: its
configured whisper model identifier. -/
structure Producer where
  model : String
deriving DecidableEq

/-- The result envelope `PublishError` builds and hands to
`PublishResult`: `success=false`, empty text, zero duration, the
producer's model, and the given message. -/
def Producer.PublishError (p : Producer) (attachmentID : Int)
    (errorMessage : String) : TranscriptionResult :=
  { attachmentID := attachmentID
    texto := ""
    duration := 0
    model := p.model
    success := false
    errorMessage := errorMessage }

/-- The result envelope `PublishSuccess` builds and hands to
`PublishResult`: `success=true`, the worker's text and duration, the
producer's model (the `ErrorMessage` field is left at its zero value). -/
def Producer.PublishSuccess (p : Producer) (attachmentID : Int)
    (texto : String) (duration : Rat) : TranscriptionResult :=
  { attachmentID := attachmentID
    texto := texto
    duration := duration
    model := p.model
    success := true
    errorMessage := "" }

/-- Go's `int32(n)` narrowing conversion on a (64-bit) `int` value. -/
def toInt32 (n : Int) : Int :=
  (n + 2 ^ 31) % 2 ^ 32 - 2 ^ 31

/-- The envelope `PublishRetry` sends to the retry exchange: the request
with `RetryCount` incremented as payload, and the header `x-retry-count`
set to `int32` of the new count. -/
structure RetryEnvelope where
  payload : TranscriptionRequest
  headerRetryCount : Int
deriving DecidableEq

/-- `PublishRetry`: increment the (local copy of the) request's retry
count, marshal it as the payload, and set the `x-retry-count` header. -/
def PublishRetry (request : TranscriptionRequest) : RetryEnvelope :=
  let request := { request with retryCount := request.retryCount + 1 }
  { payload := request, headerRetryCount := toInt32 request.retryCount }

/-! ## Subprocess pool (`internal/worker/process_pool.go`) -/

/-- The mutable fields of a `PythonProcess` slot that the pool logic reads
and writes around one exchange.  `lastUsed` is a timestamp (`time.Time`),
modelled as an integer instant. -/
structure ProcState where
  busy : Bool
  alive : Bool
  lastUsed : Int
deriving DecidableEq

/-- What the slot's I/O did during one `Execute` exchange: the write to the
child's stdin failed, the read of the response line failed, the line read
did not parse as JSON, or a response was parsed.  Error text and the raw
line are carried as data of the environment. -/
inductive ExchangeResult where
  | writeError (errText : String)
  | readError (errText : String)
  | parseError (errText : String) (raw : String)
  | parsed (resp : PythonWorkerResponse)
deriving DecidableEq

/-- The environment of one `Execute` call on an acquired slot: the I/O
outcome and the value `time.Now()` takes at the update point. -/
structure ExecEnv where
  exchange : ExchangeResult
  now : Int
deriving DecidableEq

/-- `releaseProcess`: clear the slot's `busy` flag (and nothing else). -/
def releaseProcess (st : ProcState) : ProcState :=
  { st with busy := false }

/-- `Execute`, from the point where the slot has been acquired
(`busy := true`): a failed write or read marks the slot dead; a parse
failure leaves the flags alone; a parsed response updates `lastUsed` to
the current time.  The deferred `releaseProcess` runs on every path before
the function returns.  Returns the final slot state together with the
`(response, error)` pair the dispatch layer sees. -/
def Execute (env : ExecEnv) (st : ProcState) :
    ProcState × Except String PythonWorkerResponse :=
  let step :=
    match env.exchange with
    | .writeError e =>
        ({ st with alive := false },
         Except.error ("failed to write to process: " ++ e))
    | .readError e =>
        ({ st with alive := false },
         Except.error ("failed to read from process: " ++ e))
    | .parseError e raw =>
        (st, Except.error ("failed to parse response: " ++ e ++ ", raw: " ++ raw))
    | .parsed resp =>
        ({ st with lastUsed := env.now }, Except.ok resp)
  (releaseProcess step.1, step.2)

/-- The spawn handshake of `spawnProcess`, after `cmd.Start()` succeeded:
read the first line of the child's stdout (`none` models a read error /
EOF).  The slot is usable only when the line, trimmed of surrounding
whitespace, equals `READY`; otherwise the child is killed and the spawn
returns an error. -/
structure SpawnAttempt where
  usable : Bool
  killed : Bool
deriving DecidableEq

/-- Go `unicode.IsSpace`: membership in the Unicode `White_Space`
property (the full, finite code-point list). -/
def goIsSpace (c : Char) : Bool :=
  let n := c.toNat
  n == 0x9 || n == 0xA || n == 0xB || n == 0xC || n == 0xD || n == 0x20 ||
  n == 0x85 || n == 0xA0 || n == 0x1680 ||
  (0x2000 ≤ n && n ≤ 0x200A) ||
  n == 0x2028 || n == 0x2029 || n == 0x202F || n == 0x205F || n == 0x3000

/-- `strings.TrimSpace`: drop leading and trailing `unicode.IsSpace`
characters. -/
def goTrimSpace (s : String) : String :=
  String.mk (((s.data.dropWhile goIsSpace).reverse.dropWhile goIsSpace).reverse)

/-- The handshake decision of `spawnProcess` on the first line read from
the child (`none`: `ReadString` returned an error). -/
def spawnHandshake (firstLine : Option String) : SpawnAttempt :=
  match firstLine with
  | none => { usable := false, killed := true }
  | some line =>
    if goTrimSpace line = "READY" then { usable := true, killed := false }
    else { usable := false, killed := true }

/-! ## Dispatch pipeline (`internal/worker/pool.go`) -/

/-- One publish the dispatch layer hands to the producer: either a result
envelope to the results exchange or a retry envelope to the retry
exchange. -/
inductive Publish where
  | result (r : TranscriptionResult)
  | retry (e : RetryEnvelope)
deriving DecidableEq

/-- The acknowledgement sent on the inbound delivery:
`Ack(false)` or `Nack(false, true)` (negative, requeue). -/
inductive AckAction where
  | ack
  | nackRequeue
deriving DecidableEq

/-- What one `processJob` run did: the publishes attempted (handed to the
broker), those the broker accepted, the acknowledgement actions on the
delivery, and how many times `ProcessPool.Execute` was called. -/
structure JobOutcome where
  attempts : List Publish
  succeeded : List Publish
  acks : List AckAction
  executeCalls : Nat
deriving DecidableEq

/-- The environment a single `processJob` run observes: the file system
(`os.Stat` oracle), what `ProcessPool.Execute` returned, and whether the
one publish this attempt performs is accepted by the broker. -/
structure DispatchEnv where
  stat : String → Option FileInfo
  execResult : Except String PythonWorkerResponse
  publishOk : Bool

/-- The shared tail of every `processJob` branch: attempt one publish; if
it fails, `Nack(false, true)` and return; otherwise `Ack(false)`. -/
def publishThenAck (env : DispatchEnv) (pub : Publish) (execCalls : Nat) :
    JobOutcome :=
  if env.publishOk then
    { attempts := [pub], succeeded := [pub],
      acks := [AckAction.ack], executeCalls := execCalls }
  else
    { attempts := [pub], succeeded := [],
      acks := [AckAction.nackRequeue], executeCalls := execCalls }

/-- `handleFailure`: on a transient failure, retry while `ShouldRetry`
allows it (publishing the retry envelope), else publish the terminal
error carrying the failure message.  Always called after one `Execute`. -/
def handleFailure (p : Producer) (env : DispatchEnv)
    (request : TranscriptionRequest) (errorMessage : String) : JobOutcome :=
  if ShouldRetry request.retryCount then
    publishThenAck env (Publish.retry (PublishRetry request)) 1
  else
    publishThenAck env (Publish.result (p.PublishError request.attachmentID errorMessage)) 1

/-- `processJob`: validate existence, then extension; then run the worker
exchange; route transient failures through `handleFailure`; publish the
success result otherwise. -/
def processJob (p : Producer) (env : DispatchEnv)
    (request : TranscriptionRequest) : JobOutcome :=
  if FileExists env.stat request.audioFilePath = false then
    publishThenAck env
      (Publish.result (p.PublishError request.attachmentID
        ("Audio file not found: " ++ request.audioFilePath))) 0
  else if ValidateAudioExtension request.audioFilePath = false then
    publishThenAck env
      (Publish.result (p.PublishError request.attachmentID
        "Unsupported audio format")) 0
  else
    match env.execResult with
    | Except.error e => handleFailure p env request e
    | Except.ok response =>
      if response.success = false then
        handleFailure p env request response.errorMessage
      else
        publishThenAck env
          (Publish.result (p.PublishSuccess request.attachmentID
            response.texto response.duration)) 1

/-- The failure message `processJob` routes to `handleFailure`, when the
exchange outcome is a transient failure: the `Execute` error text, or the
worker-reported `error_message` when the response has `success=false`. -/
def failureMessage : Except String PythonWorkerResponse → Option String
  | Except.error e => some e
  | Except.ok r => if r.success then none else some r.errorMessage

/-- The attachment id a publish carries (results: the envelope's own;
retries: the payload's). -/
def Publish.attachmentID : Publish → Int
  | .result r => r.attachmentID
  | .retry e => e.payload.attachmentID

/-- Whether the marshalled body of a publish contains an
`import_batch_id` JSON key. -/
def Publish.hasImportBatchField : Publish → Bool
  | .result r => r.jsonKeys.contains "import_batch_id"
  | .retry e => e.payload.jsonKeys.contains "import_batch_id"

/-! ## Supervisor teardown (`cmd/orchestrator/main.go`) -/

/-- The five teardown actions `main` registers. -/
inductive TeardownStep where
  | closeConn
  | closeConsumer
  | closeProducer
  | shutdownProcessPool
  | shutdownWorkerPool
deriving DecidableEq

/-- The `defer` registrations of `main`, in program order:
`conn.Close`, `consumer.Close`, `producer.Close`, `processPool.Shutdown`,
`workerPool.Shutdown`.  (`workerPool.Shutdown` closes the internal Job
channel and waits for the dispatch routines to drain.) -/
def mainDeferRegistration : List TeardownStep :=
  [TeardownStep.closeConn, TeardownStep.closeConsumer,
   TeardownStep.closeProducer, TeardownStep.shutdownProcessPool,
   TeardownStep.shutdownWorkerPool]

/-- The order the teardown actually runs in after the shutdown signal:
Go executes deferred calls in last-in-first-out order when `main`
returns. -/
def mainTeardownOrder : List TeardownStep :=
  mainDeferRegistration.reverse

/-- Modelled from the spec: the teardown order §4.8 claims — consumer
channel first, then the Job channel close and drain, then the subprocess
pool, then the producer channel, then the broker session.  Written from
the spec's words, to be compared with `mainTeardownOrder`. -/
def specClaimedTeardownOrder : List TeardownStep :=
  [TeardownStep.closeConsumer, TeardownStep.shutdownWorkerPool,
   TeardownStep.shutdownProcessPool, TeardownStep.closeProducer,
   TeardownStep.closeConn]

/-! ## Helper lemmas -/

/-- Every `processJob` run ends in exactly one `publishThenAck` tail. -/
theorem processJob_shape (p : Producer) (env : DispatchEnv)
    (rq : TranscriptionRequest) :
    ∃ pub n, processJob p env rq = publishThenAck env pub n := by
  unfold processJob handleFailure
  by_cases h1 : FileExists env.stat rq.audioFilePath = false
  · rw [if_pos h1]; exact ⟨_, _, rfl⟩
  rw [if_neg h1]
  by_cases h2 : ValidateAudioExtension rq.audioFilePath = false
  · rw [if_pos h2]; exact ⟨_, _, rfl⟩
  rw [if_neg h2]
  cases henv : env.execResult with
  | error e =>
    dsimp only
    by_cases h3 : ShouldRetry rq.retryCount = true
    · rw [if_pos h3]; exact ⟨_, _, rfl⟩
    · rw [if_neg h3]; exact ⟨_, _, rfl⟩
  | ok response =>
    dsimp only
    by_cases hs : response.success = false
    · rw [if_pos hs]
      by_cases h3 : ShouldRetry rq.retryCount = true
      · rw [if_pos h3]; exact ⟨_, _, rfl⟩
      · rw [if_neg h3]; exact ⟨_, _, rfl⟩
    · rw [if_neg hs]; exact ⟨_, _, rfl⟩

/-- The publish attempts of a `publishThenAck` tail. -/
theorem publishThenAck_attempts (env : DispatchEnv) (pub : Publish) (n : Nat) :
    (publishThenAck env pub n).attempts = [pub] := by
  unfold publishThenAck
  split <;> rfl

/-- No marshalled result envelope carries an `import_batch_id` key. -/
theorem result_jsonKeys_no_import_batch (r : TranscriptionResult) :
    r.jsonKeys.contains "import_batch_id" = false := by
  unfold TranscriptionResult.jsonKeys
  by_cases h : r.errorMessage = "" <;> simp [h]

/-- No marshalled request payload carries an `import_batch_id` key. -/
theorem request_jsonKeys_no_import_batch (rq : TranscriptionRequest) :
    rq.jsonKeys.contains "import_batch_id" = false := by
  unfold TranscriptionRequest.jsonKeys
  by_cases h1 : rq.language = "" <;> by_cases h2 : rq.retryCount = 0 <;>
    simp [h1, h2]

/-! ## Claims -/

/-- **C6.** `PublishError` builds a result envelope with `success=false`,
empty `texto`, zero `duration`, the given message, the producer's
configured model identifier, and the given attachment id — on every
invocation. -/
theorem c6_publish_error_fields (p : Producer) (attachmentID : Int)
    (msg : String) :
    (p.PublishError attachmentID msg).success = false ∧
    (p.PublishError attachmentID msg).texto = "" ∧
    (p.PublishError attachmentID msg).duration = 0 ∧
    (p.PublishError attachmentID msg).errorMessage = msg ∧
    (p.PublishError attachmentID msg).model = p.model ∧
    (p.PublishError attachmentID msg).attachmentID = attachmentID :=
  ⟨rfl, rfl, rfl, rfl, rfl, rfl⟩

/-- **C9.** Every `Execute` call that acquired a slot leaves the slot's
`busy` flag cleared when it returns — success, write error, read error,
and parse error alike (`releaseProcess` is deferred on every path). -/
theorem c9_execute_clears_busy (env : ExecEnv) (st : ProcState) :
    (Execute env st).1.busy = false := by
  cases henv : env.exchange <;> simp [Execute, henv, releaseProcess]

/-- **C3 counterexample.** A release after a failed exchange does not
update `last_used`: a slot last used at instant 5 goes through a failed
write at instant 10, is released, and still carries `last_used = 5`
(with `alive` dropped and `busy` cleared). -/
theorem c3_release_counterexample :
    (Execute { exchange := ExchangeResult.writeError "pipe closed", now := 10 }
        { busy := true, alive := true, lastUsed := 5 }).1 =
      { busy := false, alive := false, lastUsed := 5 } ∧
    (5 : Int) ≠ 10 := by
  constructor
  · rfl
  · decide

/-- **C3 (amended).** `releaseProcess` clears `busy` and touches nothing
else; `last_used` is updated inside `Execute` only on the path where a
response line was read and parsed (set to the exchange instant), and is
left unchanged by releases that follow a failed write, read, or parse. -/
theorem c3_release_clears_busy_only (st : ProcState) (env : ExecEnv) :
    (releaseProcess st).busy = false ∧
    (releaseProcess st).alive = st.alive ∧
    (releaseProcess st).lastUsed = st.lastUsed ∧
    (Execute env st).1.busy = false ∧
    (Execute env st).1.lastUsed =
      (match env.exchange with
       | ExchangeResult.parsed _ => env.now
       | _ => st.lastUsed) := by
  refine ⟨rfl, rfl, rfl, c9_execute_clears_busy env st, ?_⟩
  cases henv : env.exchange <;> simp [Execute, henv, releaseProcess]

/-- **C2 counterexample.** The teardown order `main` actually runs (the
reverse of its `defer` registrations) differs from the order the spec
states. -/
theorem c2_teardown_counterexample :
    mainTeardownOrder ≠ specClaimedTeardownOrder := by
  decide

/-- **C2 (amended).** On a shutdown signal the deferred teardown runs in
last-in-first-out order: first the dispatch pool shutdown (which closes
the internal Job channel and waits for the dispatch routines to drain),
then the subprocess pool shutdown, then the producer channel close, then
the consumer channel close, and finally the broker session close.  The
consumer channel is closed fourth, not first. -/
theorem c2_teardown_order :
    mainTeardownOrder =
      [TeardownStep.shutdownWorkerPool, TeardownStep.shutdownProcessPool,
       TeardownStep.closeProducer, TeardownStep.closeConsumer,
       TeardownStep.closeConn] := by
  decide

/-- **C8 counterexample.** The first line `" READY\n"` is not exactly
`"READY\n"`, yet the handshake accepts it and the slot becomes usable
(the comparison trims surrounding whitespace). -/
theorem c8_handshake_counterexample :
    (spawnHandshake (some " READY\n")).usable = true ∧
    (" READY\n" : String) ≠ "READY\n" := by
  constructor
  · rfl
  · decide

/-- **C8 (amended).** After spawn the slot becomes usable exactly when the
read of the child's first output line succeeds and the line, trimmed of
leading and trailing Unicode whitespace, equals `READY`; a read failure
(EOF) or any non-matching line kills the child and fails the spawn.  (The
blocking read has no timeout.) -/
theorem c8_handshake_trimmed (firstLine : Option String) :
    ((spawnHandshake firstLine).usable = true ↔
      ∃ line, firstLine = some line ∧ goTrimSpace line = "READY") ∧
    (spawnHandshake firstLine).killed = !(spawnHandshake firstLine).usable := by
  cases firstLine with
  | none => simp [spawnHandshake]
  | some line =>
    by_cases h : goTrimSpace line = "READY" <;> simp [spawnHandshake, h]

/-! ### Concrete sample inputs used by the witnesses -/

/-- A producer configured with the default `base` model. -/
def sampleProducer : Producer := { model := "base" }

/-- A well-formed first-attempt request for an existing `.mp3` file. -/
def sampleRequest : TranscriptionRequest :=
  { attachmentID := 4, audioFilePath := "/a/ok.mp3", language := "", retryCount := 0 }

/-- A request whose path has an unsupported extension. -/
def sampleBadExtRequest : TranscriptionRequest :=
  { attachmentID := 2, audioFilePath := "/a/x.xyz", language := "", retryCount := 0 }

/-- A request whose path names a directory. -/
def sampleDirRequest : TranscriptionRequest :=
  { attachmentID := 3, audioFilePath := "/a/dir.mp3", language := "", retryCount := 0 }

/-- A file system on which every path is an existing regular file. -/
def allFilesStat : String → Option FileInfo := fun _ => some { isDir := false }

/-- A dispatch environment: files exist, the exchange fails transiently,
publishes succeed. -/
def sampleFailEnv : DispatchEnv :=
  { stat := allFilesStat, execResult := Except.error "boom", publishOk := true }

/-- A dispatch environment on which every path is a directory. -/
def sampleDirEnv : DispatchEnv :=
  { stat := fun _ => some { isDir := true },
    execResult := Except.error "boom", publishOk := true }

/-- A dispatch environment on which no path exists. -/
def sampleMissingEnv : DispatchEnv :=
  { stat := fun _ => none, execResult := Except.error "boom", publishOk := true }

/-- **C5.** Every processed job attempt performs exactly one publish
attempt and exactly one acknowledgement action: an ack when the publish
succeeded, a negative acknowledgement with requeue when the publish
itself failed (in which case nothing reached the broker). -/
theorem c5_ack_discipline (p : Producer) (env : DispatchEnv)
    (rq : TranscriptionRequest) :
    (processJob p env rq).acks =
      (if env.publishOk then [AckAction.ack] else [AckAction.nackRequeue]) ∧
    (processJob p env rq).attempts.length = 1 ∧
    (processJob p env rq).succeeded =
      (if env.publishOk then (processJob p env rq).attempts else []) := by
  obtain ⟨pub, n, h⟩ := processJob_shape p env rq
  rw [h]
  unfold publishThenAck
  cases hp : env.publishOk <;> simp [hp]

/-- **C4.** A transient failure (exchange error or worker-reported
failure) is routed through `handleFailure`; `ShouldRetry count` holds
exactly when `count < MaxRetries = 2` (3 total attempts); below the
budget, the published retry envelope carries the incremented
`retry_count` in its payload and the same new count in its
`x-retry-count` header; at or above the budget, a terminal error result
carrying the failure message is published instead. -/
theorem c4_retry_policy (p : Producer) (env : DispatchEnv)
    (rq : TranscriptionRequest) (msg : String)
    (hfile : FileExists env.stat rq.audioFilePath = true)
    (hext : ValidateAudioExtension rq.audioFilePath = true)
    (hfail : failureMessage env.execResult = some msg)
    (hnn : 0 ≤ rq.retryCount)
    (hpub : env.publishOk = true) :
    processJob p env rq = handleFailure p env rq msg ∧
    (ShouldRetry rq.retryCount = true ↔ rq.retryCount < MaxRetries) ∧
    (rq.retryCount < MaxRetries →
      (PublishRetry rq).payload.retryCount = rq.retryCount + 1 ∧
      (PublishRetry rq).headerRetryCount = rq.retryCount + 1 ∧
      handleFailure p env rq msg =
        { attempts := [Publish.retry (PublishRetry rq)],
          succeeded := [Publish.retry (PublishRetry rq)],
          acks := [AckAction.ack], executeCalls := 1 }) ∧
    (MaxRetries ≤ rq.retryCount →
      handleFailure p env rq msg =
        { attempts := [Publish.result (p.PublishError rq.attachmentID msg)],
          succeeded := [Publish.result (p.PublishError rq.attachmentID msg)],
          acks := [AckAction.ack], executeCalls := 1 }) := by
  refine ⟨?_, by simp [ShouldRetry], ?_, ?_⟩
  · unfold processJob
    rw [if_neg (by simp [hfile]), if_neg (by simp [hext])]
    cases henv : env.execResult with
    | error e =>
      rw [henv] at hfail
      simp only [failureMessage, Option.some.injEq] at hfail
      rw [hfail]
    | ok response =>
      rw [henv] at hfail
      simp only [failureMessage] at hfail
      by_cases hs : response.success = true
      · rw [if_pos hs] at hfail
        cases hfail
      · have hs2 : response.success = false := by
          simpa using hs
        rw [if_neg hs] at hfail
        simp only [Option.some.injEq] at hfail
        dsimp only
        rw [if_pos hs2, hfail]
  · intro h
    refine ⟨rfl, ?_, ?_⟩
    · show toInt32 (rq.retryCount + 1) = rq.retryCount + 1
      unfold toInt32
      unfold MaxRetries at h
      omega
    · unfold handleFailure
      rw [if_pos (by simpa [ShouldRetry] using h)]
      unfold publishThenAck
      rw [if_pos hpub]
  · intro h
    unfold handleFailure
    rw [if_neg (by simp [ShouldRetry]; omega)]
    unfold publishThenAck
    rw [if_pos hpub]

/-- Witness for C4 at a concrete first-attempt job that fails
transiently: the run routes through `handleFailure`, and the retry
envelope carries the incremented count in payload and header. -/
theorem c4_retry_policy_witness :
    processJob sampleProducer sampleFailEnv sampleRequest =
      handleFailure sampleProducer sampleFailEnv sampleRequest "boom" ∧
    (PublishRetry sampleRequest).payload.retryCount =
      sampleRequest.retryCount + 1 ∧
    (PublishRetry sampleRequest).headerRetryCount =
      sampleRequest.retryCount + 1 ∧
    handleFailure sampleProducer sampleFailEnv sampleRequest "boom" =
      { attempts := [Publish.retry (PublishRetry sampleRequest)],
        succeeded := [Publish.retry (PublishRetry sampleRequest)],
        acks := [AckAction.ack], executeCalls := 1 } := by
  have h := c4_retry_policy sampleProducer sampleFailEnv sampleRequest "boom"
    (by decide) (by decide) (by decide) (by decide) rfl
  exact ⟨h.1, h.2.2.1 (by decide)⟩

/-- **C7.** Extension validation accepts a path exactly when its
`filepath.Ext` extension, lowercased, is in the supported set (so
`.MP3` is accepted); a job whose path fails the check (the file itself
existing) yields the terminal error `Unsupported audio format` and an
ack, with zero worker invocations and no retry. -/
theorem c7_extension_validation (path : String) (p : Producer)
    (env : DispatchEnv) (rq : TranscriptionRequest)
    (hfile : FileExists env.stat rq.audioFilePath = true)
    (hext : ValidateAudioExtension rq.audioFilePath = false)
    (hpub : env.publishOk = true) :
    (ValidateAudioExtension path = true ↔
      toLowerStringGo (filepathExt path) ∈ SupportedAudioFormats) ∧
    ValidateAudioExtension "/a/x.MP3" = true ∧
    processJob p env rq =
      { attempts := [Publish.result (p.PublishError rq.attachmentID
          "Unsupported audio format")],
        succeeded := [Publish.result (p.PublishError rq.attachmentID
          "Unsupported audio format")],
        acks := [AckAction.ack], executeCalls := 0 } := by
  refine ⟨?_, by decide, ?_⟩
  · simp only [ValidateAudioExtension, List.any_eq_true, beq_iff_eq]
    constructor
    · rintro ⟨x, hx, hxe⟩
      exact hxe ▸ hx
    · intro hm
      exact ⟨_, hm, rfl⟩
  · unfold processJob
    rw [if_neg (by simp [hfile]), if_pos hext]
    unfold publishThenAck
    rw [if_pos hpub]

/-- Witness for C7: the mixed-case `.MP3` path is accepted, and the
concrete `/a/x.xyz` job gets the terminal format error with an ack and
no worker call. -/
theorem c7_extension_validation_witness :
    ValidateAudioExtension "/a/x.MP3" = true ∧
    processJob sampleProducer sampleFailEnv sampleBadExtRequest =
      { attempts := [Publish.result (sampleProducer.PublishError 2
          "Unsupported audio format")],
        succeeded := [Publish.result (sampleProducer.PublishError 2
          "Unsupported audio format")],
        acks := [AckAction.ack], executeCalls := 0 } := by
  have h := c7_extension_validation "/a/x.MP3" sampleProducer sampleFailEnv
    sampleBadExtRequest (by decide) (by decide) rfl
  exact ⟨h.2.1, h.2.2⟩

/-- **C10.** `FileExists` is false on an existing directory, so a job
whose `audio_file_path` is a directory gets the terminal error
`Audio file not found: <path>` and an ack, with zero worker
invocations. -/
theorem c10_directory_not_found (p : Producer) (env : DispatchEnv)
    (rq : TranscriptionRequest) (info : FileInfo)
    (hstat : env.stat rq.audioFilePath = some info)
    (hdir : info.isDir = true)
    (hpub : env.publishOk = true) :
    FileExists env.stat rq.audioFilePath = false ∧
    processJob p env rq =
      { attempts := [Publish.result (p.PublishError rq.attachmentID
          ("Audio file not found: " ++ rq.audioFilePath))],
        succeeded := [Publish.result (p.PublishError rq.attachmentID
          ("Audio file not found: " ++ rq.audioFilePath))],
        acks := [AckAction.ack], executeCalls := 0 } := by
  have hfe : FileExists env.stat rq.audioFilePath = false := by
    unfold FileExists
    rw [hstat]
    simp [hdir]
  refine ⟨hfe, ?_⟩
  unfold processJob
  rw [if_pos hfe]
  unfold publishThenAck
  rw [if_pos hpub]

/-- Witness for C10 at the concrete directory path `/a/dir.mp3`. -/
theorem c10_directory_not_found_witness :
    FileExists sampleDirEnv.stat sampleDirRequest.audioFilePath = false ∧
    processJob sampleProducer sampleDirEnv sampleDirRequest =
      { attempts := [Publish.result (sampleProducer.PublishError 3
          ("Audio file not found: " ++ "/a/dir.mp3"))],
        succeeded := [Publish.result (sampleProducer.PublishError 3
          ("Audio file not found: " ++ "/a/dir.mp3"))],
        acks := [AckAction.ack], executeCalls := 0 } :=
  c10_directory_not_found sampleProducer sampleDirEnv sampleDirRequest
    { isDir := true } rfl rfl rfl

/-- **C1 counterexample.** The published result envelope for a concrete
request carries no `import_batch_id` JSON key at all, and the inbound
decoder binds no `import_batch_id` field either — so the
`import_batch_id` of the originating message is dropped, not echoed. -/
theorem c1_import_batch_counterexample :
    "import_batch_id" ∉
      (Producer.PublishError { model := "base" } 2
        "Unsupported audio format").jsonKeys ∧
    "import_batch_id" ∉ TranscriptionRequest.jsonFieldNames := by
  decide

/-- **C1 (amended).** Every envelope a job attempt hands to the broker
echoes the originating request's `attachment_id`; neither request nor
result envelopes have an `import_batch_id` field, so no publish carries
one (any inbound `import_batch_id` is dropped by the decoder rather than
passed through). -/
theorem c1_attachment_echo (p : Producer) (env : DispatchEnv)
    (rq : TranscriptionRequest) (pub : Publish)
    (hmem : pub ∈ (processJob p env rq).attempts) :
    pub.attachmentID = rq.attachmentID ∧
    pub.hasImportBatchField = false := by
  unfold processJob handleFailure at hmem
  by_cases h1 : FileExists env.stat rq.audioFilePath = false
  · rw [if_pos h1, publishThenAck_attempts] at hmem
    simp only [List.mem_singleton] at hmem
    subst hmem
    exact ⟨rfl, result_jsonKeys_no_import_batch _⟩
  rw [if_neg h1] at hmem
  by_cases h2 : ValidateAudioExtension rq.audioFilePath = false
  · rw [if_pos h2, publishThenAck_attempts] at hmem
    simp only [List.mem_singleton] at hmem
    subst hmem
    exact ⟨rfl, result_jsonKeys_no_import_batch _⟩
  rw [if_neg h2] at hmem
  cases henv : env.execResult with
  | error e =>
    rw [henv] at hmem
    dsimp only at hmem
    by_cases h3 : ShouldRetry rq.retryCount = true
    · rw [if_pos h3, publishThenAck_attempts] at hmem
      simp only [List.mem_singleton] at hmem
      subst hmem
      exact ⟨rfl, request_jsonKeys_no_import_batch _⟩
    · rw [if_neg h3, publishThenAck_attempts] at hmem
      simp only [List.mem_singleton] at hmem
      subst hmem
      exact ⟨rfl, result_jsonKeys_no_import_batch _⟩
  | ok response =>
    rw [henv] at hmem
    dsimp only at hmem
    by_cases hs : response.success = false
    · rw [if_pos hs] at hmem
      by_cases h3 : ShouldRetry rq.retryCount = true
      · rw [if_pos h3, publishThenAck_attempts] at hmem
        simp only [List.mem_singleton] at hmem
        subst hmem
        exact ⟨rfl, request_jsonKeys_no_import_batch _⟩
      · rw [if_neg h3, publishThenAck_attempts] at hmem
        simp only [List.mem_singleton] at hmem
        subst hmem
        exact ⟨rfl, result_jsonKeys_no_import_batch _⟩
    · rw [if_neg hs, publishThenAck_attempts] at hmem
      simp only [List.mem_singleton] at hmem
      subst hmem
      exact ⟨rfl, result_jsonKeys_no_import_batch _⟩

/-- Witness for the amended C1 at a concrete missing-file job. -/
theorem c1_attachment_echo_witness :
    (Publish.result (sampleProducer.PublishError sampleRequest.attachmentID
        ("Audio file not found: " ++ sampleRequest.audioFilePath))).attachmentID =
      sampleRequest.attachmentID ∧
    (Publish.result (sampleProducer.PublishError sampleRequest.attachmentID
        ("Audio file not found: " ++ sampleRequest.audioFilePath))).hasImportBatchField =
      false :=
  c1_attachment_echo sampleProducer sampleMissingEnv sampleRequest _ (by decide)

end WhisperLocal
